import Mathlib

/-!
Shallow embedding of the derived-metrics core of the nonprofit grant
analytics repository: the three SQL views created in
`src/data/generate_nonprofit_data.py` (`NonprofitDataGenerator.create_views`)
and the dashboard query `load_compliance_alerts` from
`src/dashboard/streamlit_app.py`.

Modelling conventions:
- SQLite REAL columns are modelled as `ℚ` (exact arithmetic idealisation).
- Date (TEXT) columns enter the views only through `julianday(...)`, a
  strictly monotone map from dates to real numbers; we therefore model each
  date column directly by its julian-day value in `ℚ`, and `julianday('now')`
  by an explicit parameter `now : ℚ`.
- SQL NULL is modelled by `Option`: SQLite yields NULL for `x / 0`, for
  `SUM` over zero rows, and propagates NULL through `*`, `-` and `ROUND`.
- `ROUND(x, 2)` in SQLite rounds half away from zero; `round2` below.
- Text columns not consulted by any view or by the dashboard queries under
  study (e.g. `grant_officer`, `purpose`, `vendor`, `notes`) are omitted
  from the row types.
-/

namespace NonprofitGrants

/-- Row of the `grants` base table (columns consulted by the views). -/
structure Grant where
  grant_id : String
  grant_name : String
  funder_name : String
  total_amount : ℚ
  start_date : ℚ
  end_date : ℚ
  status : String
  deriving DecidableEq

/-- Row of the `budget_categories` base table. -/
structure BudgetCategory where
  category_id : String
  grant_id : String
  category_name : String
  budgeted_amount : ℚ
  spent_amount : ℚ
  deriving DecidableEq

/-- Row of the `deliverables` base table (columns consulted by the views). -/
structure Deliverable where
  deliverable_id : String
  grant_id : String
  deliverable_name : String
  due_date : ℚ
  status : String
  deriving DecidableEq

/-- Row of the `outcome_metrics` base table (columns consulted by the views). -/
structure OutcomeMetric where
  metric_id : String
  grant_id : String
  metric_name : String
  target_value : ℚ
  current_value : ℚ
  unit_of_measure : String
  deriving DecidableEq

/-- Row of the `reports` base table (columns consulted by the views). -/
structure Report where
  report_id : String
  grant_id : String
  report_type : String
  due_date : ℚ
  status : String
  deriving DecidableEq

/-- The populated database state the views are computed over. -/
structure Database where
  grants : List Grant
  budget_categories : List BudgetCategory
  deliverables : List Deliverable
  outcome_metrics : List OutcomeMetric
  reports : List Report
  deriving DecidableEq

/-- SQLite `ROUND(x, 2)`: round to 2 decimal digits, halves away from zero. -/
def round2 (x : ℚ) : ℚ :=
  if 0 ≤ x then ((Int.floor (x * 100 + 1 / 2) : ℤ) : ℚ) / 100
  else -(((Int.floor (-x * 100 + 1 / 2) : ℤ) : ℚ) / 100)

/-- The budget categories of one grant: the rows of `budget_categories`
matched by the join condition `g.grant_id = bc.grant_id`. -/
def categoriesOf (db : Database) (gid : String) : List BudgetCategory :=
  db.budget_categories.filter (fun bc => bc.grant_id == gid)

/-- `SUM(bc.spent_amount)` over a nonempty group of category rows. -/
def sumSpent (cats : List BudgetCategory) : ℚ :=
  (cats.map (fun bc => bc.spent_amount)).sum

/-- Row of the `v_grant_summary` view. `total_spent`, `remaining_budget` and
`spent_percentage` are `Option ℚ` because `SUM` over zero joined rows is NULL
(LEFT JOIN with no matching category) and division by zero is NULL in SQLite,
and NULL propagates through `-`, `*` and `ROUND`. -/
structure GrantSummaryRow where
  grant_id : String
  grant_name : String
  funder_name : String
  total_amount : ℚ
  start_date : ℚ
  end_date : ℚ
  status : String
  total_spent : Option ℚ
  remaining_budget : Option ℚ
  spent_percentage : Option ℚ
  days_remaining : ℚ
  deriving DecidableEq

/-- The `v_grant_summary` group for a single grant: the aggregates over its
LEFT-JOINed budget categories, grouped by `g.grant_id` (a primary key). -/
def grantSummaryRow (db : Database) (now : ℚ) (g : Grant) : GrantSummaryRow :=
  let cats := categoriesOf db g.grant_id
  { grant_id := g.grant_id
    grant_name := g.grant_name
    funder_name := g.funder_name
    total_amount := g.total_amount
    start_date := g.start_date
    end_date := g.end_date
    status := g.status
    total_spent := if cats = [] then none else some (sumSpent cats)
    remaining_budget := if cats = [] then none else some (g.total_amount - sumSpent cats)
    spent_percentage :=
      if cats = [] then none
      else if g.total_amount = 0 then none
      else some (round2 (100 * sumSpent cats / g.total_amount))
    days_remaining := g.end_date - now }

/-- The `v_grant_summary` view: one row per grant (grant_id is the primary
key of `grants`, so GROUP BY g.grant_id groups exactly per grant row). -/
def v_grant_summary (db : Database) (now : ℚ) : List GrantSummaryRow :=
  db.grants.map (grantSummaryRow db now)

/-- Row of the `v_compliance_alerts` view. The single `days_overdue` column
carries days for the two time-based alert kinds and the overspend percentage
for budget alerts; it is NULL when `budgeted_amount = 0` (division by zero). -/
structure Alert where
  alert_type : String
  grant_id : String
  item_name : String
  due_date : Option ℚ
  days_overdue : Option ℚ
  deriving DecidableEq

/-- Alert row built from an Overdue report:
`julianday('now') - julianday(due_date)`. -/
def reportAlert (now : ℚ) (r : Report) : Alert :=
  { alert_type := "Overdue Report"
    grant_id := r.grant_id
    item_name := r.report_type
    due_date := some r.due_date
    days_overdue := some (now - r.due_date) }

/-- Alert row built from an Overdue deliverable. -/
def deliverableAlert (now : ℚ) (d : Deliverable) : Alert :=
  { alert_type := "Overdue Deliverable"
    grant_id := d.grant_id
    item_name := d.deliverable_name
    due_date := some d.due_date
    days_overdue := some (now - d.due_date) }

/-- Alert row built from an overspent budget category:
`ROUND(100.0 * (spent - budgeted) / budgeted, 2)`, NULL when the denominator
is zero (SQLite division by zero). -/
def budgetAlert (bc : BudgetCategory) : Alert :=
  { alert_type := "Budget Overspent"
    grant_id := bc.grant_id
    item_name := bc.category_name
    due_date := none
    days_overdue :=
      if bc.budgeted_amount = 0 then none
      else some (round2 (100 * (bc.spent_amount - bc.budgeted_amount) / bc.budgeted_amount)) }

/-- The `v_compliance_alerts` view: UNION ALL of the three alert sources,
keeping duplicates and order of the three SELECTs. -/
def v_compliance_alerts (db : Database) (now : ℚ) : List Alert :=
  ((db.reports.filter (fun r => r.status == "Overdue")).map (reportAlert now))
    ++ ((db.deliverables.filter (fun d => d.status == "Overdue")).map (deliverableAlert now))
    ++ ((db.budget_categories.filter
          (fun bc => decide (bc.spent_amount > bc.budgeted_amount))).map budgetAlert)

/-- Result row of the dashboard query `load_compliance_alerts`: the alert
columns together with the joined grant's name and funder. -/
structure AlertJoined where
  alert : Alert
  grant_name : String
  funder_name : String
  deriving DecidableEq

/-- The inner join `v_compliance_alerts ca JOIN grants g ON ca.grant_id =
g.grant_id` of the dashboard query: alerts without a matching grant produce
no output row. -/
def joinAlerts (db : Database) (alerts : List Alert) : List AlertJoined :=
  alerts.flatMap (fun a =>
    (db.grants.filter (fun g => g.grant_id == a.grant_id)).map
      (fun g => { alert := a, grant_name := g.grant_name, funder_name := g.funder_name }))

/-- SQLite comparison order on the nullable `days_overdue` column: NULL
sorts below every value. -/
def optLE : Option ℚ → Option ℚ → Prop
  | none, _ => True
  | some _, none => False
  | some x, some y => x ≤ y

instance decOptLE : ∀ a b : Option ℚ, Decidable (optLE a b)
  | none, _ => isTrue trivial
  | some _, none => isFalse (fun h => h)
  | some x, some y => inferInstanceAs (Decidable (x ≤ y))

/-- The `ORDER BY days_overdue DESC` order of `load_compliance_alerts`:
`a` precedes `b` when the key of `b` is at most the key of `a`. -/
def alertDescOrder (a b : AlertJoined) : Prop :=
  optLE b.alert.days_overdue a.alert.days_overdue

instance : DecidableRel alertDescOrder := fun a b =>
  decOptLE b.alert.days_overdue a.alert.days_overdue

theorem optLE_total : ∀ a b : Option ℚ, optLE a b ∨ optLE b a
  | none, _ => Or.inl trivial
  | some _, none => Or.inr trivial
  | some x, some y => le_total x y

theorem optLE_trans : ∀ {a b c : Option ℚ}, optLE a b → optLE b c → optLE a c
  | none, _, _, _, _ => trivial
  | some _, none, _, h1, _ => absurd h1 (fun h => h)
  | some _, some _, none, _, h2 => absurd h2 (fun h => h)
  | some _, some _, some _, h1, h2 => le_trans h1 h2

instance : IsTotal AlertJoined alertDescOrder :=
  ⟨fun a b => optLE_total b.alert.days_overdue a.alert.days_overdue⟩

instance : IsTrans AlertJoined alertDescOrder :=
  ⟨fun _ _ _ hab hbc => optLE_trans hbc hab⟩

/-- The dashboard query `load_compliance_alerts`: join the alerts view with
`grants` and sort by `days_overdue` descending (SQLite ORDER BY ... DESC,
with NULL keys last). -/
def load_compliance_alerts (db : Database) (now : ℚ) : List AlertJoined :=
  List.insertionSort alertDescOrder (joinAlerts db (v_compliance_alerts db now))

/-- The CASE expression of `v_outcome_performance`, verbatim from the view:
compares `current_value` against `target_value` and `target_value * 0.75`. -/
def outcomeStatus (current target : ℚ) : String :=
  if current ≥ target then "On Track"
  else if current ≥ target * 0.75 then "Needs Attention"
  else "At Risk"

/-- Row of the `v_outcome_performance` view. `achievement_percentage` is
NULL when `target_value = 0` (SQLite division by zero). -/
structure OutcomeRow where
  grant_id : String
  grant_name : String
  metric_name : String
  target_value : ℚ
  current_value : ℚ
  achievement_percentage : Option ℚ
  unit_of_measure : String
  status : String
  deriving DecidableEq

/-- The `v_outcome_performance` row produced by one metric joined with one
matching grant. -/
def outcomeRow (g : Grant) (om : OutcomeMetric) : OutcomeRow :=
  { grant_id := om.grant_id
    grant_name := g.grant_name
    metric_name := om.metric_name
    target_value := om.target_value
    current_value := om.current_value
    achievement_percentage :=
      if om.target_value = 0 then none
      else some (round2 (100 * om.current_value / om.target_value))
    unit_of_measure := om.unit_of_measure
    status := outcomeStatus om.current_value om.target_value }

/-- The `v_outcome_performance` view: inner join of `outcome_metrics` with
`grants` on `grant_id` — a metric without a matching grant yields no row. -/
def v_outcome_performance (db : Database) : List OutcomeRow :=
  db.outcome_metrics.flatMap (fun om =>
    (db.grants.filter (fun g => g.grant_id == om.grant_id)).map
      (fun g => outcomeRow g om))

/-- Specification-side classifier for claim C7, written from the spec's
words (a pure function of the achievement percentage): ≥ 100 → On Track,
in [75, 100) → Needs Attention, < 75 → At Risk. -/
def classifyPct (p : ℚ) : String :=
  if p ≥ 100 then "On Track"
  else if p ≥ 75 then "Needs Attention"
  else "At Risk"

/-! Concrete database states used as witnesses and counterexamples. -/

/-- A grant in the style of the generator's output. -/
def exGrant1 : Grant :=
  { grant_id := "GR001", grant_name := "Youth Education Initiative",
    funder_name := "Acme Foundation", total_amount := 100000,
    start_date := 2460000, end_date := 2460365, status := "Active" }

/-- A metric whose exact achievement is 74.999 percent: below the 75-percent
threshold, yet its rounded `achievement_percentage` is exactly 75.00. -/
def exMetricA : OutcomeMetric :=
  { metric_id := "MET0001", grant_id := "GR001", metric_name := "Students Enrolled",
    target_value := 10000, current_value := 74999 / 10, unit_of_measure := "Participants" }

/-- A metric exactly at 75 percent of target (spec example: target 200,
current 150). -/
def exMetricB : OutcomeMetric :=
  { metric_id := "MET0002", grant_id := "GR001", metric_name := "Program Completion Rate",
    target_value := 200, current_value := 150, unit_of_measure := "Percentage" }

def exDbOutcome : Database :=
  { grants := [exGrant1], budget_categories := [], deliverables := [],
    outcome_metrics := [exMetricA, exMetricB], reports := [] }

/-- An overspent budget category: spent 150 against a budget of 100. -/
def exCatOver : BudgetCategory :=
  { category_id := "BC0001", grant_id := "GR001", category_name := "Travel",
    budgeted_amount := 100, spent_amount := 150 }

def exDel1 : Deliverable :=
  { deliverable_id := "DEL0001", grant_id := "GR001",
    deliverable_name := "Final Report", due_date := 2460100, status := "Overdue" }

def exRep1 : Report :=
  { report_id := "REP0001", grant_id := "GR001",
    report_type := "Financial Report", due_date := 2460050, status := "Overdue" }

def exDbAlerts : Database :=
  { grants := [exGrant1], budget_categories := [exCatOver],
    deliverables := [exDel1], outcome_metrics := [], reports := [exRep1] }

/-- A grant with `total_amount = 0`, the zero-denominator case of
`spent_percentage`. -/
def exGrantZero : Grant :=
  { grant_id := "GZ001", grant_name := "Zero Grant", funder_name := "Nobody",
    total_amount := 0, start_date := 0, end_date := 10, status := "Active" }

def exCatZero : BudgetCategory :=
  { category_id := "BCZ001", grant_id := "GZ001", category_name := "Travel",
    budgeted_amount := 50, spent_amount := 10 }

/-- A metric with `target_value = 0`, the zero-denominator case of
`achievement_percentage`. -/
def exMetricZero : OutcomeMetric :=
  { metric_id := "MZ001", grant_id := "GZ001", metric_name := "Meals Distributed",
    target_value := 0, current_value := 5, unit_of_measure := "Meals" }

def exDbZero : Database :=
  { grants := [exGrantZero], budget_categories := [exCatZero], deliverables := [],
    outcome_metrics := [exMetricZero], reports := [] }

/-- A grant with no budget-category rows at all. -/
def exGrantNoCats : Grant :=
  { grant_id := "GN001", grant_name := "Uncategorised Grant", funder_name := "Acme",
    total_amount := 1000, start_date := 0, end_date := 10, status := "Active" }

def exDbNoCats : Database :=
  { grants := [exGrantNoCats], budget_categories := [], deliverables := [],
    outcome_metrics := [], reports := [] }

/-- A metric and a report whose `grant_id` matches no grant. -/
def exMetricOrphan : OutcomeMetric :=
  { metric_id := "MX001", grant_id := "GHOST", metric_name := "Clients Served",
    target_value := 100, current_value := 50, unit_of_measure := "Individuals" }

def exRepOrphan : Report :=
  { report_id := "RX001", grant_id := "GHOST", report_type := "Financial Report",
    due_date := 0, status := "Overdue" }

def exDbOrphan : Database :=
  { grants := [], budget_categories := [], deliverables := [],
    outcome_metrics := [exMetricOrphan], reports := [exRepOrphan] }

/-! Helper lemmas shared between the claim theorems. -/

theorem outcomeStatus_on_track {c t : ℚ} (h : c ≥ t) : outcomeStatus c t = "On Track" := by
  unfold outcomeStatus
  rw [if_pos h]

theorem outcomeStatus_needs_attention {c t : ℚ} (h1 : c < t) (h2 : c ≥ t * 0.75) :
    outcomeStatus c t = "Needs Attention" := by
  unfold outcomeStatus
  rw [if_neg (not_le.mpr h1), if_pos h2]

theorem outcomeStatus_at_risk {c t : ℚ} (h1 : c < t) (h2 : c < t * 0.75) :
    outcomeStatus c t = "At Risk" := by
  unfold outcomeStatus
  rw [if_neg (not_le.mpr h1), if_neg (not_le.mpr h2)]

/-- Inversion for membership in `v_outcome_performance`: every row comes from
a metric inner-joined with a grant of equal `grant_id`. -/
theorem mem_v_outcome_cases {db : Database} {row : OutcomeRow}
    (h : row ∈ v_outcome_performance db) :
    ∃ g ∈ db.grants, ∃ om ∈ db.outcome_metrics,
      g.grant_id = om.grant_id ∧ row = outcomeRow g om := by
  simp only [v_outcome_performance, List.mem_flatMap, List.mem_map, List.mem_filter,
    beq_iff_eq] at h
  obtain ⟨om, hom, g, ⟨hg, hid⟩, hrow⟩ := h
  exact ⟨g, hg, om, hom, hid, hrow.symm⟩

/-- Inversion for membership in `joinAlerts`: every joined row comes from an
alert inner-joined with a grant of equal `grant_id`. -/
theorem mem_joinAlerts_cases {db : Database} {alerts : List Alert} {x : AlertJoined}
    (h : x ∈ joinAlerts db alerts) :
    ∃ g ∈ db.grants, ∃ a ∈ alerts,
      g.grant_id = a.grant_id ∧ x.alert = a ∧ x.grant_name = g.grant_name := by
  simp only [joinAlerts, List.mem_flatMap, List.mem_map, List.mem_filter,
    beq_iff_eq] at h
  obtain ⟨a, ha, g, ⟨hg, hid⟩, hx⟩ := h
  exact ⟨g, hg, a, ha, hid, by rw [← hx], by rw [← hx]⟩

/-! Claim theorems. -/

/-- C1: for every row of the outcome-performance view, the status is
'On Track' when `current_value ≥ target_value`, 'Needs Attention' when
`current_value ≥ 0.75 * target_value` yet below `target_value`, and
'At Risk' otherwise; ties resolve as exactly-at-target → On Track and
exactly-at-75-percent (below target) → Needs Attention. -/
theorem C1_outcome_status_thresholds (db : Database) (row : OutcomeRow)
    (hrow : row ∈ v_outcome_performance db) :
    (row.current_value ≥ row.target_value → row.status = "On Track") ∧
    (row.current_value < row.target_value →
      row.current_value ≥ row.target_value * 0.75 → row.status = "Needs Attention") ∧
    (row.current_value < row.target_value →
      row.current_value < row.target_value * 0.75 → row.status = "At Risk") ∧
    (row.current_value = row.target_value → row.status = "On Track") ∧
    (row.current_value = row.target_value * 0.75 →
      row.current_value < row.target_value → row.status = "Needs Attention") := by
  obtain ⟨g, _, om, _, _, hr⟩ := mem_v_outcome_cases hrow
  subst hr
  have hc : (outcomeRow g om).current_value = om.current_value := rfl
  have ht : (outcomeRow g om).target_value = om.target_value := rfl
  have hs : (outcomeRow g om).status = outcomeStatus om.current_value om.target_value := rfl
  rw [hc, ht, hs]
  exact ⟨fun h => outcomeStatus_on_track h,
    fun h1 h2 => outcomeStatus_needs_attention h1 h2,
    fun h1 h2 => outcomeStatus_at_risk h1 h2,
    fun h => outcomeStatus_on_track (le_of_eq h.symm),
    fun h h1 => outcomeStatus_needs_attention h1 (le_of_eq h.symm)⟩

/-- C1 witness: the spec's example metric (target 200, current 150) sits
exactly at 75 percent and is classified Needs Attention. -/
theorem C1_witness : (outcomeRow exGrant1 exMetricB).status = "Needs Attention" :=
  (C1_outcome_status_thresholds exDbOutcome (outcomeRow exGrant1 exMetricB)
      (by simp [v_outcome_performance, exDbOutcome, exGrant1, exMetricB])).2.1
    (by norm_num [outcomeRow, exMetricB])
    (by norm_num [outcomeRow, exMetricB])

/-- C2 counterexample: the claim says a zero denominator yields 0. In the
code (SQLite) a zero denominator yields NULL, not 0: a grant with
`total_amount = 0` (and a category row) gets `spent_percentage = NULL`, and
a metric with `target_value = 0` gets `achievement_percentage = NULL`. -/
theorem C2_counterexample :
    (grantSummaryRow exDbZero 0 exGrantZero).spent_percentage ≠ some 0 ∧
    (grantSummaryRow exDbZero 0 exGrantZero).spent_percentage = none ∧
    grantSummaryRow exDbZero 0 exGrantZero ∈ v_grant_summary exDbZero 0 ∧
    (outcomeRow exGrantZero exMetricZero).achievement_percentage ≠ some 0 ∧
    (outcomeRow exGrantZero exMetricZero).achievement_percentage = none ∧
    outcomeRow exGrantZero exMetricZero ∈ v_outcome_performance exDbZero := by
  refine ⟨?_, ?_, ?_, ?_, ?_, ?_⟩ <;>
    simp [grantSummaryRow, categoriesOf, v_grant_summary, outcomeRow,
      v_outcome_performance, exDbZero, exGrantZero, exCatZero, exMetricZero]

/-- C2 (amended): every ratio computation with a zero denominator yields
NULL (an absent value) rather than raising or propagating a fault:
`spent_percentage` is NULL for a grant with `total_amount = 0` and
`achievement_percentage` is NULL for a metric with `target_value = 0` (the
view computations are total functions, so no fault is possible). -/
theorem C2_zero_denominator_yields_null (db : Database) (now : ℚ) (g : Grant)
    (gm : Grant) (om : OutcomeMetric)
    (hg : g.total_amount = 0) (ht : om.target_value = 0) :
    (grantSummaryRow db now g).spent_percentage = none ∧
    (outcomeRow gm om).achievement_percentage = none := by
  constructor
  · simp [grantSummaryRow, hg]
  · simp [outcomeRow, ht]

/-- C2 witness: the amended claim at the concrete zero-denominator grant and
metric. -/
theorem C2_witness :
    (grantSummaryRow exDbZero 0 exGrantZero).spent_percentage = none ∧
    (outcomeRow exGrantZero exMetricZero).achievement_percentage = none :=
  C2_zero_denominator_yields_null exDbZero 0 exGrantZero exGrantZero exMetricZero rfl rfl

/-- C3 counterexample: the claim quantifies over every grant, but for a
grant with no budget-category rows the LEFT JOIN aggregate `SUM` is NULL, so
`total_spent` is NULL rather than the (empty) sum 0 and the identity cannot
hold. -/
theorem C3_counterexample :
    (grantSummaryRow exDbNoCats 0 exGrantNoCats).total_spent
        ≠ some (sumSpent (categoriesOf exDbNoCats exGrantNoCats.grant_id)) ∧
    (grantSummaryRow exDbNoCats 0 exGrantNoCats).total_spent = none ∧
    (grantSummaryRow exDbNoCats 0 exGrantNoCats).remaining_budget = none ∧
    grantSummaryRow exDbNoCats 0 exGrantNoCats ∈ v_grant_summary exDbNoCats 0 := by
  refine ⟨?_, ?_, ?_, ?_⟩ <;>
    simp [grantSummaryRow, categoriesOf, sumSpent, v_grant_summary,
      exDbNoCats, exGrantNoCats]

/-- C3 (amended): for every grant with at least one budget-category row, the
grant-summary row has `total_spent = Σ category.spent_amount` and
`remaining_budget = total_amount − total_spent`, hence
`remaining_budget + total_spent = total_amount` (exactly, in the rational
model). -/
theorem C3_grant_summary_identity (db : Database) (now : ℚ) (g : Grant)
    (hg : g ∈ db.grants) (hc : categoriesOf db g.grant_id ≠ []) :
    grantSummaryRow db now g ∈ v_grant_summary db now ∧
    (grantSummaryRow db now g).total_spent = some (sumSpent (categoriesOf db g.grant_id)) ∧
    (grantSummaryRow db now g).remaining_budget
      = some (g.total_amount - sumSpent (categoriesOf db g.grant_id)) ∧
    ∀ s r : ℚ, (grantSummaryRow db now g).total_spent = some s →
      (grantSummaryRow db now g).remaining_budget = some r →
      r + s = g.total_amount := by
  refine ⟨List.mem_map_of_mem _ hg, ?_, ?_, ?_⟩
  · simp [grantSummaryRow, hc]
  · simp [grantSummaryRow, hc]
  · intro s r hs hr
    simp only [grantSummaryRow, if_neg hc, Option.some_inj] at hs hr
    rw [← hs, ← hr]
    ring

/-- C3 witness: the amended claim at a concrete grant with one category. -/
theorem C3_witness :
    grantSummaryRow exDbAlerts 2460110 exGrant1 ∈ v_grant_summary exDbAlerts 2460110 ∧
    (grantSummaryRow exDbAlerts 2460110 exGrant1).total_spent
      = some (sumSpent (categoriesOf exDbAlerts exGrant1.grant_id)) ∧
    (grantSummaryRow exDbAlerts 2460110 exGrant1).remaining_budget
      = some (exGrant1.total_amount - sumSpent (categoriesOf exDbAlerts exGrant1.grant_id)) ∧
    ∀ s r : ℚ, (grantSummaryRow exDbAlerts 2460110 exGrant1).total_spent = some s →
      (grantSummaryRow exDbAlerts 2460110 exGrant1).remaining_budget = some r →
      r + s = exGrant1.total_amount :=
  C3_grant_summary_identity exDbAlerts 2460110 exGrant1
    (by simp [exDbAlerts])
    (by simp [categoriesOf, exDbAlerts, exCatOver, exGrant1])

/-- C4: the compliance-alert view has exactly (Overdue reports) + (Overdue
deliverables) + (overspent categories) entries — UNION ALL, no cross-source
deduplication. -/
theorem C4_alert_count (db : Database) (now : ℚ) :
    (v_compliance_alerts db now).length
      = (db.reports.filter (fun r => r.status == "Overdue")).length
        + (db.deliverables.filter (fun d => d.status == "Overdue")).length
        + (db.budget_categories.filter
            (fun bc => decide (bc.spent_amount > bc.budgeted_amount))).length := by
  simp [v_compliance_alerts]
  omega

/-- C5: the dashboard's `load_compliance_alerts` returns a single list
sorted by the shared `days_overdue` severity column in descending order
(`alertDescOrder`; NULL keys sort last, as SQLite's DESC does), and that
list is a permutation of the joined union of the three alert sources — the
severity column holds `days_overdue` for the two time-based kinds and
`percent_over` for budget alerts, by the construction of
`v_compliance_alerts`. -/
theorem C5_alerts_sorted_desc (db : Database) (now : ℚ) :
    List.Sorted alertDescOrder (load_compliance_alerts db now) ∧
    (load_compliance_alerts db now).Perm (joinAlerts db (v_compliance_alerts db now)) :=
  ⟨List.sorted_insertionSort alertDescOrder _, List.perm_insertionSort alertDescOrder _⟩

/-- C6 counterexample: the claim says the alert carries
`days_overdue = floor(now − due_date)`. The view computes
`julianday('now') − julianday(due_date)` without flooring, so an overdue
report 10.5 days past due carries 10.5, not 10. -/
theorem C6_counterexample :
    (reportAlert (2460050 + 21 / 2) exRep1).days_overdue = some (21 / 2) ∧
    reportAlert (2460050 + 21 / 2) exRep1
      ∈ v_compliance_alerts exDbAlerts (2460050 + 21 / 2) ∧
    (reportAlert (2460050 + 21 / 2) exRep1).days_overdue
      ≠ some ((Int.floor (((2460050 : ℚ) + 21 / 2) - exRep1.due_date) : ℤ) : ℚ) := by
  refine ⟨?_, ?_, ?_⟩
  · norm_num [reportAlert, exRep1]
  · simp [v_compliance_alerts, exDbAlerts, exRep1, exDel1, exCatOver,
      List.filter_cons, decide_eq_true_eq]
  · norm_num [reportAlert, exRep1]

/-- C6 (amended): for every Report and Deliverable with status Overdue, the
generated alert carries `days_overdue = now − due_date` in (fractional)
days, without flooring; the value is non-negative whenever `due_date ≤ now`,
which the construction of the Overdue status guarantees (the generator only
assigns Overdue to items already past due). -/
theorem C6_days_overdue_exact (db : Database) (now : ℚ) (r : Report) (d : Deliverable)
    (hr : r ∈ db.reports) (hrov : r.status = "Overdue")
    (hd : d ∈ db.deliverables) (hdov : d.status = "Overdue")
    (hrn : r.due_date ≤ now) (hdn : d.due_date ≤ now) :
    reportAlert now r ∈ v_compliance_alerts db now ∧
    deliverableAlert now d ∈ v_compliance_alerts db now ∧
    (reportAlert now r).days_overdue = some (now - r.due_date) ∧
    (deliverableAlert now d).days_overdue = some (now - d.due_date) ∧
    0 ≤ now - r.due_date ∧ 0 ≤ now - d.due_date := by
  have hrf : r ∈ db.reports.filter (fun x => x.status == "Overdue") :=
    List.mem_filter.mpr ⟨hr, by simp [hrov]⟩
  have hdf : d ∈ db.deliverables.filter (fun x => x.status == "Overdue") :=
    List.mem_filter.mpr ⟨hd, by simp [hdov]⟩
  refine ⟨?_, ?_, rfl, rfl, sub_nonneg.mpr hrn, sub_nonneg.mpr hdn⟩
  · exact List.mem_append_left _ (List.mem_append_left _
      (List.mem_map_of_mem _ hrf))
  · exact List.mem_append_left _ (List.mem_append_right _
      (List.mem_map_of_mem _ hdf))

/-- C6 witness: the amended claim at a concrete overdue report and
deliverable, 60 and 10 days past due. -/
theorem C6_witness :
    reportAlert 2460110 exRep1 ∈ v_compliance_alerts exDbAlerts 2460110 ∧
    deliverableAlert 2460110 exDel1 ∈ v_compliance_alerts exDbAlerts 2460110 ∧
    (reportAlert 2460110 exRep1).days_overdue = some (2460110 - exRep1.due_date) ∧
    (deliverableAlert 2460110 exDel1).days_overdue = some (2460110 - exDel1.due_date) ∧
    0 ≤ (2460110 : ℚ) - exRep1.due_date ∧ 0 ≤ (2460110 : ℚ) - exDel1.due_date :=
  C6_days_overdue_exact exDbAlerts 2460110 exRep1 exDel1
    (by simp [exDbAlerts]) rfl (by simp [exDbAlerts]) rfl
    (by norm_num [exRep1]) (by norm_num [exDel1])

/-- C7 counterexample: the status is not a pure function of the rounded
`achievement_percentage`, and 75.00 does not always yield Needs Attention:
two metrics in the same view both report `achievement_percentage = 75.00`,
yet one (target 10000, current 7499.9; exact ratio 74.999 percent) is At
Risk while the other (target 200, current 150) is Needs Attention. -/
theorem C7_counterexample :
    (outcomeRow exGrant1 exMetricA).achievement_percentage
      = (outcomeRow exGrant1 exMetricB).achievement_percentage ∧
    (outcomeRow exGrant1 exMetricA).achievement_percentage = some 75 ∧
    (outcomeRow exGrant1 exMetricA).status = "At Risk" ∧
    (outcomeRow exGrant1 exMetricB).status = "Needs Attention" ∧
    outcomeRow exGrant1 exMetricA ∈ v_outcome_performance exDbOutcome ∧
    outcomeRow exGrant1 exMetricB ∈ v_outcome_performance exDbOutcome := by
  refine ⟨?_, ?_, ?_, ?_, ?_, ?_⟩
  · norm_num [outcomeRow, round2, exMetricA, exMetricB]
  · norm_num [outcomeRow, round2, exMetricA]
  · norm_num [outcomeRow, outcomeStatus, exMetricA]
  · norm_num [outcomeRow, outcomeStatus, exMetricB]
  · simp [v_outcome_performance, exDbOutcome, exGrant1, exMetricA]
  · simp [v_outcome_performance, exDbOutcome, exGrant1, exMetricB]

/-- C7 (amended): the status classification is a pure function of the exact
(unrounded) achievement percentage `100 × current / target` (for positive
target): ≥ 100 → On Track, in [75, 100) → Needs Attention, < 75 → At Risk;
the boundary statements hold for the exact percentage, while the rounded
`achievement_percentage` column can display 75.00 for an At-Risk metric. -/
theorem C7_status_function_of_exact_ratio (c t : ℚ) (ht : 0 < t) :
    outcomeStatus c t = classifyPct (100 * c / t) := by
  have h100 : ((100 : ℚ) ≤ 100 * c / t) ↔ t ≤ c := by
    rw [le_div_iff₀ ht]
    constructor <;> intro h <;> nlinarith
  have h75 : ((75 : ℚ) ≤ 100 * c / t) ↔ t * 0.75 ≤ c := by
    rw [le_div_iff₀ ht]
    constructor <;> intro h <;> nlinarith
  unfold outcomeStatus classifyPct
  by_cases h1 : t ≤ c
  · rw [if_pos h1, if_pos (h100.mpr h1)]
  · rw [if_neg h1, if_neg (fun hh => h1 (h100.mp hh))]
    by_cases h2 : t * 0.75 ≤ c
    · rw [if_pos h2, if_pos (h75.mpr h2)]
    · rw [if_neg h2, if_neg (fun hh => h2 (h75.mp hh))]

/-- C7 witness: the amended claim at the spec's example target 200,
current 150. -/
theorem C7_witness : outcomeStatus 150 200 = classifyPct (100 * 150 / 200) :=
  C7_status_function_of_exact_ratio 150 200 (by norm_num)

/-- C8: every budget category with `spent_amount > budgeted_amount` (and a
nonzero budget, without which the claim's formula is undefined) produces a
Budget Overspent alert in the view whose severity value is
`round(100 × (spent − budgeted) / budgeted, 2)`. -/
theorem C8_budget_overspent_alert (db : Database) (now : ℚ) (bc : BudgetCategory)
    (hm : bc ∈ db.budget_categories) (hb : bc.budgeted_amount ≠ 0)
    (hover : bc.spent_amount > bc.budgeted_amount) :
    budgetAlert bc ∈ v_compliance_alerts db now ∧
    (budgetAlert bc).alert_type = "Budget Overspent" ∧
    (budgetAlert bc).days_overdue
      = some (round2 (100 * (bc.spent_amount - bc.budgeted_amount) / bc.budgeted_amount)) := by
  have hbf : bc ∈ db.budget_categories.filter
      (fun x => decide (x.spent_amount > x.budgeted_amount)) :=
    List.mem_filter.mpr ⟨hm, by simp [hover]⟩
  refine ⟨?_, rfl, by simp [budgetAlert, hb]⟩
  exact List.mem_append_right _ (List.mem_map_of_mem _ hbf)

/-- C8 witness: the category overspent 150 against 100 yields a Budget
Overspent alert with severity `round(100 × 50 / 100, 2) = 50`. -/
theorem C8_witness :
    budgetAlert exCatOver ∈ v_compliance_alerts exDbAlerts 2460110 ∧
    (budgetAlert exCatOver).alert_type = "Budget Overspent" ∧
    (budgetAlert exCatOver).days_overdue
      = some (round2 (100 * (exCatOver.spent_amount - exCatOver.budgeted_amount)
          / exCatOver.budgeted_amount)) :=
  C8_budget_overspent_alert exDbAlerts 2460110 exCatOver
    (by simp [exDbAlerts]) (by norm_num [exCatOver]) (by norm_num [exCatOver])

/-- C9 counterexample: a metric whose `grant_id` matches no grant is
silently dropped by the inner join of `v_outcome_performance` (the view is
empty although one metric exists), and an alert whose `grant_id` matches no
grant is silently dropped by the join in `load_compliance_alerts` — no
construction-time failure is surfaced anywhere. -/
theorem C9_counterexample :
    exDbOrphan.outcome_metrics.length = 1 ∧
    v_outcome_performance exDbOrphan = [] ∧
    (v_compliance_alerts exDbOrphan 10).length = 1 ∧
    load_compliance_alerts exDbOrphan 10 = [] := by
  refine ⟨rfl, ?_, ?_, ?_⟩ <;>
    simp [v_outcome_performance, v_compliance_alerts, load_compliance_alerts,
      joinAlerts, List.insertionSort, exDbOrphan, exMetricOrphan, exRepOrphan,
      List.filter_cons]

/-- C9 (amended): building the derived summaries never fails; instead, a
metric or alert whose `grant_id` has no matching grant is silently dropped
by the inner join: every row that does appear has a matching grant. -/
theorem C9_missing_grant_rows_dropped (db : Database) (now : ℚ) :
    (∀ row ∈ v_outcome_performance db, ∃ g ∈ db.grants, g.grant_id = row.grant_id) ∧
    (∀ x ∈ load_compliance_alerts db now,
      ∃ g ∈ db.grants, g.grant_id = x.alert.grant_id) := by
  constructor
  · intro row hrow
    obtain ⟨g, hg, om, _, hid, hr⟩ := mem_v_outcome_cases hrow
    refine ⟨g, hg, ?_⟩
    rw [hr]
    exact hid
  · intro x hx
    have hx' : x ∈ joinAlerts db (v_compliance_alerts db now) :=
      ((List.perm_insertionSort alertDescOrder _).mem_iff).mp hx
    obtain ⟨g, hg, a, _, hid, hxa, _⟩ := mem_joinAlerts_cases hx'
    exact ⟨g, hg, by rw [hxa]; exact hid⟩

/-- C9 witness: the amended claim at a concrete view row. -/
theorem C9_witness :
    ∃ g ∈ exDbOutcome.grants, g.grant_id = (outcomeRow exGrant1 exMetricA).grant_id :=
  (C9_missing_grant_rows_dropped exDbOutcome 0).1 (outcomeRow exGrant1 exMetricA)
    (by simp [v_outcome_performance, exDbOutcome, exGrant1, exMetricA])

/-- C10: a grant with no budget-category rows still has a row in the
grant-summary view (LEFT JOIN), but its `total_spent`, `remaining_budget`
and `spent_percentage` are NULL rather than 0, so the budget identity does
not hold for that row. -/
theorem C10_left_join_null_row (db : Database) (now : ℚ) (g : Grant)
    (hg : g ∈ db.grants) (hc : categoriesOf db g.grant_id = []) :
    grantSummaryRow db now g ∈ v_grant_summary db now ∧
    (grantSummaryRow db now g).total_spent = none ∧
    (grantSummaryRow db now g).remaining_budget = none ∧
    (grantSummaryRow db now g).spent_percentage = none ∧
    (grantSummaryRow db now g).total_spent ≠ some 0 := by
  refine ⟨List.mem_map_of_mem _ hg, ?_, ?_, ?_, ?_⟩ <;> simp [grantSummaryRow, hc]

/-- C10 witness: the claim at the concrete grant without categories. -/
theorem C10_witness :
    grantSummaryRow exDbNoCats 0 exGrantNoCats ∈ v_grant_summary exDbNoCats 0 ∧
    (grantSummaryRow exDbNoCats 0 exGrantNoCats).total_spent = none ∧
    (grantSummaryRow exDbNoCats 0 exGrantNoCats).remaining_budget = none ∧
    (grantSummaryRow exDbNoCats 0 exGrantNoCats).spent_percentage = none ∧
    (grantSummaryRow exDbNoCats 0 exGrantNoCats).total_spent ≠ some 0 :=
  C10_left_join_null_row exDbNoCats 0 exGrantNoCats
    (by simp [exDbNoCats]) (by simp [categoriesOf, exDbNoCats])

end NonprofitGrants
